import Mathlib

/-!
Shallow embedding of the watch repository.

Source files embedded:
* src/session.py        — class Session (clock-driven expiry tracker)
* src/sample/sample.py  — class Database (access-controlled key-value store)

Wall-clock time (Python time.time) is modelled as an integer number of
seconds passed explicitly to every operation that reads the clock; at
whole-second granularity the int() truncation applied by the source to
the (non-negative) second differences is the identity and is therefore
not written. Python exceptions are modelled by an explicit error type:
an operation that can raise returns an Except value, and the store
operations that catch the expired-session ValueError internally return
a dedicated Guarded result type whose expiredPrompt constructor stands
for printing the re-authentication message and returning None.
-/

/-- Errors raised by the embedded code. The first four are Python
ValueError instances (distinguished here by their origin); the last is a
PermissionError, a different exception class. -/
inductive PyErr where
  /-- ValueError from has_expired when the session was never started. -/
  | invalidState
  /-- ValueError from require_session, carrying time_since_expiry in seconds. -/
  | sessionExpired (elapsed : ℤ)
  /-- ValueError from Database login on an unknown access level. -/
  | invalidAccessLevel
  /-- ValueError from tuple unpacking of line.split in Database load. -/
  | unpackError
  /-- PermissionError from Database.modify for a non-admin caller. -/
  | permissionError
  deriving DecidableEq

/-- Whether the exception is a Python ValueError: this is what the
except ValueError clauses in sample.py catch. PermissionError is a
distinct class and is never caught there. -/
def PyErr.isValueError : PyErr → Bool
  | .sessionExpired _ => true
  | .invalidState => true
  | .invalidAccessLevel => true
  | .unpackError => true
  | .permissionError => false

instance {ε α : Type} [DecidableEq ε] [DecidableEq α] : DecidableEq (Except ε α) :=
  fun x y =>
    match x, y with
    | .ok a, .ok b =>
        if h : a = b then isTrue (by rw [h]) else isFalse (by simp [h])
    | .error a, .error b =>
        if h : a = b then isTrue (by rw [h]) else isFalse (by simp [h])
    | .ok _, .error _ => isFalse (by simp)
    | .error _, .ok _ => isFalse (by simp)

/-- State of a Session object from src/session.py. The constructor sets
only the duration; session_expiry is absent (none) until start_session
runs, matching the missing _session_expiry attribute. -/
structure Session where
  session_duration : ℤ
  session_expiry : Option ℤ
  deriving DecidableEq

/-- start_session: sets expiry to now + duration. May be called again to
restart the session. -/
def Session.start_session (s : Session) (now : ℤ) : Session :=
  { s with session_expiry := some (now + s.session_duration) }

/-- expire_session: sets expiry to the current time. -/
def Session.expire_session (s : Session) (now : ℤ) : Session :=
  { s with session_expiry := some now }

/-- has_expired: returns time.time() > expiry; raises ValueError (here
invalidState) when the session was never started, translating the
AttributeError on the missing attribute. -/
def Session.has_expired (s : Session) (now : ℤ) : Except PyErr Bool :=
  match s.session_expiry with
  | none => .error .invalidState
  | some e => .ok (decide (e < now))

/-- time_until_expiry: 0 once expired, otherwise int(expiry - now).
The guard is has_expired, so the unstarted case propagates its error. -/
def Session.time_until_expiry (s : Session) (now : ℤ) : Except PyErr ℤ :=
  match s.session_expiry with
  | none => .error .invalidState
  | some e => if e < now then .ok 0 else .ok (e - now)

/-- time_since_expiry: 0 while alive, otherwise int(now - expiry).
The guard is has_expired, so the unstarted case propagates its error. -/
def Session.time_since_expiry (s : Session) (now : ℤ) : Except PyErr ℤ :=
  match s.session_expiry with
  | none => .error .invalidState
  | some e => if e < now then .ok (now - e) else .ok 0

/-- require_session: raises ValueError (here sessionExpired, carrying
time_since_expiry) when has_expired holds, else a no-op. The unstarted
case propagates the invalidState error of has_expired. -/
def Session.require_session (s : Session) (now : ℤ) : Except PyErr Unit :=
  match s.session_expiry with
  | none => .error .invalidState
  | some e => if e < now then .error (.sessionExpired (now - e)) else .ok ()

/-- Result of a Database operation that guards itself with
require_session inside a try/except ValueError block. expiredPrompt
means the ValueError was caught, the message asking the user to log in
again was printed, and the method returned None without touching any
state. raised means an exception escaped to the caller. -/
inductive Guarded (α : Type) where
  | expiredPrompt
  | raised (e : PyErr)
  | ok (a : α)
  deriving DecidableEq

/-- Python dict assignment d[k] = v: replaces the value in place when the
key is present (keeping its position), otherwise appends a new entry. -/
def dictInsert : List (String × String) → String → String → List (String × String)
  | [], k, v => [(k, v)]
  | (k', v') :: rest, k, v =>
      if k' = k then (k', v) :: rest else (k', v') :: dictInsert rest k v

/-- Python dict lookup d.get(k): the value of the first (unique) entry
with the given key, if any. -/
def dictGet : List (String × String) → String → Option String
  | [], _ => none
  | (k', v') :: rest, k => if k' = k then some v' else dictGet rest k

/-- Splitting a character list at every occurrence of a separator
character, accumulating the current chunk in reverse. -/
def pySplitAux (c : Char) : List Char → List Char → List String
  | [], acc => [String.mk acc.reverse]
  | x :: xs, acc =>
      if x = c then String.mk acc.reverse :: pySplitAux c xs []
      else pySplitAux c xs (x :: acc)

/-- Python str.split(sep) for a one-character separator: the chunks
between occurrences of sep, empty chunks included; the empty string
yields one empty chunk. -/
def pySplit (s : String) (c : Char) : List String :=
  pySplitAux c s.data []

/-- Characters remaining after removing leading whitespace. -/
def dropLeadingWs : List Char → List Char
  | [] => []
  | c :: cs => if c.isWhitespace then dropLeadingWs cs else c :: cs

/-- Python str.strip(): removes whitespace from both ends. -/
def pyStrip (s : String) : String :=
  String.mk ((dropLeadingWs (dropLeadingWs s.data.reverse).reverse))

/-- Python file.readlines on the whole file content: the chunks between
newline characters, except that no empty chunk is produced after a final
newline (Python keeps the newline on each line; it is dropped here,
which is observationally equal because line.split never separates at a
newline and value.strip removes it). -/
def pyReadlines (s : String) : List String :=
  let parts := pySplit s '\n'
  if parts.getLast? = some "" then parts.dropLast else parts

/-- One iteration of the loop body of Database._load:
key, value = line.split(":"); database[key] = value.strip().
line.split with a separator splits at every occurrence, and the
two-variable unpacking raises ValueError unless there are exactly two
parts. -/
def loadLine (db : List (String × String)) (line : String) :
    Except PyErr (List (String × String)) :=
  match pySplit line ':' with
  | [key, value] => .ok (dictInsert db key (pyStrip value))
  | _ => .error .unpackError

/-- The parsing loop of Database._load applied to the file content. -/
def pyLoadParse (content : String) : Except PyErr (List (String × String)) :=
  (pyReadlines content).foldlM loadLine []

/-- Database._load with its session guard: on a ValueError from
require_session it prints the expired message and returns None; a
malformed line raises out of the method (the try block only wraps
require_session). The unused flush parameter of the source is omitted:
no cache is ever populated. -/
def loadWithSession (s : Session) (now : ℤ) (content : String) :
    Guarded (List (String × String)) :=
  match s.require_session now with
  | .error e => if e.isValueError then .expiredPrompt else .raised e
  | .ok _ =>
      match pyLoadParse content with
      | .error e => .raised e
      | .ok db => .ok db

/-- _USER_SESSION_LENGTH from sample.py. -/
def USER_SESSION_LENGTH : ℤ := 1800

/-- _ADMIN_SESSION_LENGTH from sample.py. -/
def ADMIN_SESSION_LENGTH : ℤ := 900

/-- State of a Database object from sample.py. The source makes Database
inherit from Session; the embedding holds the session as a field. -/
structure Database where
  access_level : String
  database_path : String
  database : List (String × String)
  session : Session
  deriving DecidableEq

/-- Database._login: picks the session duration from the access level,
raising ValueError (invalidAccessLevel) on anything but the exact
strings, then starts the session. The raise skips start_session. -/
def Database.login (access_level : String) (now : ℤ) : Except PyErr Session :=
  if access_level = "user" then
    .ok (Session.start_session ⟨USER_SESSION_LENGTH, none⟩ now)
  else if access_level = "admin" then
    .ok (Session.start_session ⟨ADMIN_SESSION_LENGTH, none⟩ now)
  else
    .error .invalidAccessLevel

/-- Database.__init__: login (which may raise), then _load, then store
the fields. A None result of _load would be stored as the database,
giving a store with no usable mapping; that outcome is the ok none
case. -/
def Database.init (access_level database_path content : String) (now : ℤ) :
    Except PyErr (Option Database) :=
  match Database.login access_level now with
  | .error e => .error e
  | .ok s =>
      match loadWithSession s now content with
      | .expiredPrompt => .ok none
      | .raised e => .error e
      | .ok db => .ok (some ⟨access_level, database_path, db, s⟩)

/-- Database._load as a method of a constructed store. -/
def Database.load (db : Database) (now : ℤ) (content : String) :
    Guarded (List (String × String)) :=
  loadWithSession db.session now content

/-- Database.view: requires the session (printing and returning None on
the caught ValueError), then returns database.get(key, sentinel). -/
def Database.view (db : Database) (now : ℤ) (key : String) : Guarded String :=
  match db.session.require_session now with
  | .error e => if e.isValueError then .expiredPrompt else .raised e
  | .ok _ => .ok ((dictGet db.database key).getD "Key does not exist")

/-- Database.modify: requires the session (printing and returning None
on the caught ValueError), raises PermissionError unless the access
level is admin, then updates the key in memory. The file content is
threaded through unchanged: the method performs no write. -/
def Database.modify (db : Database) (file : String) (now : ℤ)
    (key value : String) : Guarded (Database × String) :=
  match db.session.require_session now with
  | .error e => if e.isValueError then .expiredPrompt else .raised e
  | .ok _ =>
      if db.access_level ≠ "admin" then .raised .permissionError
      else .ok ({ db with database := dictInsert db.database key value }, file)

/-- The write loop of Database.logout: for each key, write the key, a
colon, and the value, with no separator between entries. -/
def serializeDatabase (db : List (String × String)) : String :=
  db.foldl (fun acc kv => acc ++ kv.1 ++ ":" ++ kv.2) ""

/-- Database.logout: expires the session, then opens the backing path
for writing (truncating it) and writes the serialized mapping. Returns
the new store state and the new file content. -/
def Database.logout (db : Database) (now : ℤ) : Database × String :=
  ({ db with session := db.session.expire_session now }, serializeDatabase db.database)

/-- A user-level store with a freshly started session (started at time 0)
and two entries, used to instantiate theorems. -/
def userStore : Database :=
  ⟨"user", "database.txt", [("a", "1"), ("b", "2")], ⟨1800, some 1800⟩⟩

/-- An admin-level store with a freshly started session (started at time
0) and an empty mapping, used to instantiate theorems. -/
def adminStore : Database :=
  ⟨"admin", "database.txt", [], ⟨900, some 900⟩⟩

/-- An admin-level store whose session expired at time 10, used to
instantiate theorems at query time 100. -/
def expiredStore : Database :=
  ⟨"admin", "database.txt", [("a", "1")], ⟨900, some 10⟩⟩

lemma require_session_expired_ex (s : Session) (t : ℤ)
    (h : s.has_expired t = .ok true) :
    ∃ n, s.require_session t = .error (.sessionExpired n) := by
  cases hs : s.session_expiry with
  | none => simp [Session.has_expired, hs] at h
  | some e =>
      simp [Session.has_expired, hs] at h
      exact ⟨t - e, by simp [Session.require_session, hs, h]⟩

lemma require_session_of_live (s : Session) (t : ℤ)
    (h : s.has_expired t = .ok false) : s.require_session t = .ok () := by
  cases hs : s.session_expiry with
  | none => simp [Session.has_expired, hs] at h
  | some e =>
      simp [Session.has_expired, hs] at h
      simp [Session.require_session, hs, h]

lemma view_of_expired (db : Database) (t : ℤ) (k : String)
    (h : db.session.has_expired t = .ok true) :
    db.view t k = .expiredPrompt := by
  obtain ⟨n, hn⟩ := require_session_expired_ex _ _ h
  simp [Database.view, hn, PyErr.isValueError]

lemma modify_of_expired (db : Database) (f : String) (t : ℤ) (k v : String)
    (h : db.session.has_expired t = .ok true) :
    db.modify f t k v = .expiredPrompt := by
  obtain ⟨n, hn⟩ := require_session_expired_ex _ _ h
  simp [Database.modify, hn, PyErr.isValueError]

lemma load_of_expired (db : Database) (t : ℤ) (content : String)
    (h : db.session.has_expired t = .ok true) :
    db.load t content = .expiredPrompt := by
  obtain ⟨n, hn⟩ := require_session_expired_ex _ _ h
  simp [Database.load, loadWithSession, hn, PyErr.isValueError]

lemma dictGet_dictInsert (d : List (String × String)) (k v : String) :
    dictGet (dictInsert d k v) k = some v := by
  induction d with
  | nil => simp [dictInsert, dictGet]
  | cons hd tl ih =>
      by_cases hk : hd.1 = k
      · simp [dictInsert, dictGet, hk]
      · simp [dictInsert, dictGet, hk, ih]

/-- C1 counterexample: on a concrete store whose session expired at time
10, queried at time 100, view, modify, and load all complete with the
caught-and-printed result (returning None), and view in particular does
not raise the SessionExpired condition (90 seconds elapsed) to the
caller — refuting the claim that the condition propagates as a
catchable error. -/
theorem expired_view_swallows_cex :
    Database.view expiredStore 100 "a" = .expiredPrompt ∧
    Database.view expiredStore 100 "a" ≠ .raised (.sessionExpired 90) ∧
    Database.modify expiredStore "a:1" 100 "a" "9" = .expiredPrompt ∧
    Database.load expiredStore 100 "a:1" = .expiredPrompt := by decide

/-- C1 (corrected): on an expired session, require_session does produce
the SessionExpired condition, but view, modify, and load catch the
resulting ValueError internally, print the re-authentication prompt,
and return None; nothing is raised to the caller. -/
theorem expired_ops_swallow_session_expired (db : Database) (t : ℤ)
    (content f k v : String)
    (h : db.session.has_expired t = .ok true) :
    (∃ n, db.session.require_session t = .error (.sessionExpired n)) ∧
    db.view t k = .expiredPrompt ∧
    db.modify f t k v = .expiredPrompt ∧
    db.load t content = .expiredPrompt :=
  ⟨require_session_expired_ex _ _ h, view_of_expired db t k h,
   modify_of_expired db f t k v h, load_of_expired db t content h⟩

/-- C1 witness: instantiation at the concrete expired store. -/
theorem expired_ops_swallow_session_expired_witness :
    (∃ n, expiredStore.session.require_session 100 = .error (.sessionExpired n)) ∧
    expiredStore.view 100 "b" = .expiredPrompt ∧
    expiredStore.modify "a:1" 100 "b" "9" = .expiredPrompt ∧
    expiredStore.load 100 "a:1" = .expiredPrompt :=
  expired_ops_swallow_session_expired expiredStore 100 "a:1" "a:1" "b" "9" (by decide)

/-- C2 counterexample: logout on a store holding the two-entry mapping
a maps to 1, b maps to 2 writes the single line a:1b:2 (no newline
between entries), and reloading that content fails with the unpacking
ValueError instead of recovering the mapping — refuting the claimed
round trip for every mapping. -/
theorem logout_two_entries_not_reloadable_cex :
    (Database.logout ⟨"admin", "p", [("a", "1"), ("b", "2")], ⟨900, some 900⟩⟩ 0).2 =
      "a:1b:2" ∧
    pyLoadParse "a:1b:2" = .error .unpackError := by decide

/-- C2 (corrected): the round trip does hold for the single-entry case
named by the claim: on a live admin store whose mapping is empty,
modify of key a to value 9 yields the mapping with exactly the entry
a maps to 9, logout writes exactly a:9 to the backing source, and
parsing that content back recovers the mapping, with 9 stored under a. -/
theorem modify_logout_single_entry_roundtrip (db : Database) (f : String) (t : ℤ)
    (h1 : db.session.require_session t = .ok ())
    (h2 : db.access_level = "admin") (h3 : db.database = []) :
    ∃ db2 : Database,
      db.modify f t "a" "9" = .ok (db2, f) ∧
      db2.database = [("a", "9")] ∧
      (db2.logout t).2 = "a:9" ∧
      pyLoadParse ((db2.logout t).2) = .ok [("a", "9")] ∧
      dictGet [("a", "9")] "a" = some "9" := by
  refine ⟨{ db with database := [("a", "9")] }, ?_, rfl, ?_, ?_, by decide⟩
  · simp [Database.modify, h1, h2, h3, dictInsert]
  · simp [Database.logout, serializeDatabase]
  · simp [Database.logout]
    decide

/-- C2 witness: instantiation at the concrete empty admin store. -/
theorem modify_logout_single_entry_roundtrip_witness :
    ∃ db2 : Database,
      adminStore.modify "" 0 "a" "9" = .ok (db2, "") ∧
      db2.database = [("a", "9")] ∧
      (db2.logout 0).2 = "a:9" ∧
      pyLoadParse ((db2.logout 0).2) = .ok [("a", "9")] ∧
      dictGet [("a", "9")] "a" = some "9" :=
  modify_logout_single_entry_roundtrip adminStore "" 0 (by decide) (by decide) (by decide)

/-- C3 counterexample: a line whose value contains a colon is not split
at the first colon; loading the content a:b:c on a live session raises
the unpacking ValueError and does not produce the mapping sending a to
b:c, refuting the claim that a value may itself contain colons. -/
theorem load_colon_in_value_cex :
    Database.load userStore 0 "a:b:c" = .raised .unpackError ∧
    Database.load userStore 0 "a:b:c" ≠ .ok [("a", "b:c")] := by decide

/-- C3 (corrected): each line is split at every colon and must contain
exactly one. For well-formed lines the value is trimmed of surrounding
whitespace and a duplicated key keeps the last value (writing into a
dict always leaves the new value under the key); a line with two colons
raises instead of parsing. In the loaded content the surviving entry for
key a was written padded as space 1 space and is recovered trimmed to 1
(an untrimmed parse would keep the padding), while the duplicated key b
ends at its last value. -/
theorem load_split_trim_last_wins :
    (∀ d k v, dictGet (dictInsert d k v) k = some v) ∧
    Database.load userStore 0 "a: 1 \nb: 2 \nb:3\n" = .ok [("a", "1"), ("b", "3")] ∧
    Database.load userStore 0 "a: 1 \nb: 2 \nb:3\n" ≠ .ok [("a", " 1 "), ("b", "3")] ∧
    Database.load userStore 0 "a:b:c" = .raised .unpackError :=
  ⟨dictGet_dictInsert, by decide, by decide, by decide⟩

/-- C4 counterexample: a started session expired explicitly at time 50
and queried at the same instant 50 reports has_expired false, because
the liveness comparison is strict — refuting the claim that the session
is expired immediately after expire. -/
theorem expire_same_instant_cex :
    Session.has_expired (Session.expire_session ⟨60, some 100⟩ 50) 50 = .ok false ∧
    Session.has_expired (Session.expire_session ⟨60, some 100⟩ 50) 50 ≠ .ok true := by
  decide

/-- C4 (corrected): at every instant strictly after an explicit expire,
has_expired returns true and require_session fails with SessionExpired
carrying the seconds elapsed since the expiry instant; on a live
session (has_expired false) require_session is a no-op. -/
theorem expire_expired_strictly_later (s : Session) (t t' : ℤ) (h : t < t') :
    (s.expire_session t).has_expired t' = .ok true ∧
    (s.expire_session t).require_session t' = .error (.sessionExpired (t' - t)) ∧
    (s.has_expired t = .ok false → s.require_session t = .ok ()) := by
  refine ⟨?_, ?_, require_session_of_live s t⟩
  · simp [Session.expire_session, Session.has_expired, h]
  · simp [Session.expire_session, Session.require_session, h]

/-- C4 witness: expire at time 50, query at time 53. -/
theorem expire_expired_strictly_later_witness :
    (Session.expire_session ⟨60, some 100⟩ 50).has_expired 53 = .ok true ∧
    (Session.expire_session ⟨60, some 100⟩ 50).require_session 53 =
      .error (.sessionExpired 3) ∧
    (Session.has_expired ⟨60, some 100⟩ 50 = .ok false →
      Session.require_session ⟨60, some 100⟩ 50 = .ok ()) :=
  expire_expired_strictly_later ⟨60, some 100⟩ 50 53 (by decide)

/-- C5 (confirmed): on a live session, modify raises PermissionError for
a non-admin store (before any assignment, so the mapping is untouched),
and for an admin store returns the store with the key inserted or
overwritten in memory while the backing-source content is threaded
through unchanged — no write occurs. -/
theorem modify_permission_gate_memory_only (db : Database) (f : String) (t : ℤ)
    (k v : String)
    (h : db.session.require_session t = .ok ()) :
    (db.access_level ≠ "admin" → db.modify f t k v = .raised .permissionError) ∧
    (db.access_level = "admin" →
      db.modify f t k v = .ok ({ db with database := dictInsert db.database k v }, f)) := by
  constructor
  · intro ha
    simp [Database.modify, h, ha]
  · intro ha
    simp [Database.modify, h, ha]

/-- C5 witness: instantiation at the concrete user and admin stores. -/
theorem modify_permission_gate_memory_only_witness :
    ((userStore.access_level ≠ "admin" →
        userStore.modify "x" 0 "a" "9" = .raised .permissionError) ∧
      (userStore.access_level = "admin" →
        userStore.modify "x" 0 "a" "9" =
          .ok ({ userStore with database := dictInsert userStore.database "a" "9" }, "x"))) ∧
    ((adminStore.access_level ≠ "admin" →
        adminStore.modify "x" 0 "a" "9" = .raised .permissionError) ∧
      (adminStore.access_level = "admin" →
        adminStore.modify "x" 0 "a" "9" =
          .ok ({ adminStore with database := dictInsert adminStore.database "a" "9" }, "x"))) :=
  ⟨modify_permission_gate_memory_only userStore "x" 0 "a" "9" (by decide),
   modify_permission_gate_memory_only adminStore "x" 0 "a" "9" (by decide)⟩

/-- C6 (confirmed): on a live session, view returns the stored value for
a present key and the literal sentinel string for an absent key, and
never lets an exception escape. -/
theorem view_value_or_sentinel (db : Database) (t : ℤ) (k : String)
    (h : db.session.require_session t = .ok ()) :
    (∀ v, dictGet db.database k = some v → db.view t k = .ok v) ∧
    (dictGet db.database k = none → db.view t k = .ok "Key does not exist") ∧
    (∀ e, db.view t k ≠ .raised e) := by
  refine ⟨?_, ?_, ?_⟩
  · intro v hv
    simp [Database.view, h, hv]
  · intro hv
    simp [Database.view, h, hv]
  · intro e
    simp [Database.view, h]

/-- C6 witness: instantiation at the concrete user store, for a present
key and for an absent key. -/
theorem view_value_or_sentinel_witness :
    ((∀ v, dictGet userStore.database "a" = some v → userStore.view 0 "a" = .ok v) ∧
      (dictGet userStore.database "a" = none →
        userStore.view 0 "a" = .ok "Key does not exist") ∧
      (∀ e, userStore.view 0 "a" ≠ .raised e)) ∧
    ((∀ v, dictGet userStore.database "z" = some v → userStore.view 0 "z" = .ok v) ∧
      (dictGet userStore.database "z" = none →
        userStore.view 0 "z" = .ok "Key does not exist") ∧
      (∀ e, userStore.view 0 "z" ≠ .raised e)) :=
  ⟨view_value_or_sentinel userStore 0 "a" (by decide),
   view_value_or_sentinel userStore 0 "z" (by decide)⟩

/-- C7 (confirmed): on a session that has never been started, each of
has_expired, time_until_expiry, and time_since_expiry fails with the
invalid-state ValueError instead of returning a default value. -/
theorem unstarted_queries_invalid_state (d t : ℤ) :
    Session.has_expired ⟨d, none⟩ t = .error .invalidState ∧
    Session.time_until_expiry ⟨d, none⟩ t = .error .invalidState ∧
    Session.time_since_expiry ⟨d, none⟩ t = .error .invalidState :=
  ⟨rfl, rfl, rfl⟩

/-- C8 (confirmed): constructing a store with an access level that is
neither the exact string user nor the exact string admin fails with the
invalid-access-level ValueError; login itself fails before starting any
session, and construction fails for every backing content — even one
whose loading would raise — so no load is performed. -/
theorem invalid_access_level_no_session_no_load (lvl path content : String) (t : ℤ)
    (h1 : lvl ≠ "user") (h2 : lvl ≠ "admin") :
    Database.login lvl t = .error .invalidAccessLevel ∧
    Database.init lvl path content t = .error .invalidAccessLevel := by
  have hl : Database.login lvl t = .error .invalidAccessLevel := by
    simp [Database.login, h1, h2]
  exact ⟨hl, by simp [Database.init, hl]⟩

/-- C8 witness: access level superuser, with a backing content whose
loading would raise, showing the load is never reached. -/
theorem invalid_access_level_no_session_no_load_witness :
    Database.login "superuser" 0 = .error .invalidAccessLevel ∧
    Database.init "superuser" "p" "a:b:c" 0 = .error .invalidAccessLevel :=
  invalid_access_level_no_session_no_load "superuser" "p" "a:b:c" 0 (by decide) (by decide)

/-- C9 (confirmed): on an expired session, view, modify, and load each
complete by printing the prompt and returning None — no exception
escapes and no updated state is produced, so the in-memory mapping is
unchanged — and the None returned by view is distinct from the
missing-key sentinel string result. -/
theorem expired_ops_return_none (db : Database) (t : ℤ) (content f k v : String)
    (h : db.session.has_expired t = .ok true) :
    db.view t k = .expiredPrompt ∧
    (∀ e, db.view t k ≠ .raised e) ∧
    db.view t k ≠ .ok "Key does not exist" ∧
    db.modify f t k v = .expiredPrompt ∧
    db.load t content = .expiredPrompt := by
  refine ⟨view_of_expired db t k h, ?_, ?_, modify_of_expired db f t k v h,
    load_of_expired db t content h⟩
  · intro e
    rw [view_of_expired db t k h]
    simp
  · rw [view_of_expired db t k h]
    simp

/-- C9 witness: instantiation at the concrete expired store. -/
theorem expired_ops_return_none_witness :
    expiredStore.view 100 "a" = .expiredPrompt ∧
    (∀ e, expiredStore.view 100 "a" ≠ .raised e) ∧
    expiredStore.view 100 "a" ≠ .ok "Key does not exist" ∧
    expiredStore.modify "a:1" 100 "a" "9" = .expiredPrompt ∧
    expiredStore.load 100 "a:1" = .expiredPrompt :=
  expired_ops_return_none expiredStore 100 "a:1" "a:1" "a" "9" (by decide)

/-- C10 (confirmed): on a started session, time_until_expiry and
time_since_expiry both return non-negative integers of which at most
one is positive; a live session has time_since_expiry zero and an
expired session has time_until_expiry zero. -/
theorem time_queries_nonneg_mutually_exclusive (s : Session) (e t : ℤ)
    (h : s.session_expiry = some e) :
    ∃ u v : ℤ,
      s.time_until_expiry t = .ok u ∧ s.time_since_expiry t = .ok v ∧
      0 ≤ u ∧ 0 ≤ v ∧ ¬(0 < u ∧ 0 < v) ∧
      (s.has_expired t = .ok false → v = 0) ∧
      (s.has_expired t = .ok true → u = 0) := by
  by_cases he : e < t
  · refine ⟨0, t - e, ?_, ?_, le_refl 0, by omega, by omega, ?_, fun _ => rfl⟩
    · simp [Session.time_until_expiry, h, he]
    · simp [Session.time_since_expiry, h, he]
    · intro hf
      simp [Session.has_expired, h, he] at hf
  · refine ⟨e - t, 0, ?_, ?_, by omega, le_refl 0, by omega, fun _ => rfl, ?_⟩
    · simp [Session.time_until_expiry, h, he]
    · simp [Session.time_since_expiry, h, he]
    · intro hf
      simp [Session.has_expired, h, he] at hf

/-- C10 witness: a session of duration 60 with expiry 100, queried at
time 110. -/
theorem time_queries_nonneg_mutually_exclusive_witness :
    ∃ u v : ℤ,
      Session.time_until_expiry ⟨60, some 100⟩ 110 = .ok u ∧
      Session.time_since_expiry ⟨60, some 100⟩ 110 = .ok v ∧
      0 ≤ u ∧ 0 ≤ v ∧ ¬(0 < u ∧ 0 < v) ∧
      (Session.has_expired ⟨60, some 100⟩ 110 = .ok false → v = 0) ∧
      (Session.has_expired ⟨60, some 100⟩ 110 = .ok true → u = 0) :=
  time_queries_nonneg_mutually_exclusive ⟨60, some 100⟩ 100 110 rfl
